import Mathlib

/-!
Verification development for the LeuitCSS backup-collection subsystem.

Shallow embedding of the Python sources:
  config.py          : the compiled vendor command table and retry cap
  app/storage.py     : the immutable artifact store (save / read / verify)
  app/adapters.py    : vendor adapters, the ZTE relay variant and its poll loop
  app/collector.py   : the backup collector with its bounded retry
  app/ftp_server.py  : the FTP ingestion handler

Modelling conventions:
  - The filesystem is an explicit state value FS (directory set plus an
    association list from paths to string contents).  Paths are segment lists
    relative to the storage base directory.
  - SHA-256 is abstracted as a parameter sha256hex of type String to String;
    every theorem that needs a property of the digest states it as an explicit
    hypothesis.  The hash is applied to the string whose UTF-8 encoding the
    source hashes; UTF-8 encoding is injective, so this loses nothing.
  - Python text-mode file reads use universal newlines; the deployment target
    of the source is Linux (systemd units), so text-mode writes are the
    identity on the stored bytes while reads translate CR LF and lone CR to
    LF.  This is modelled by univNewlines, applied on the read side only.
  - Exceptions are modelled with Except; try/finally blocks are modelled by
    applying the finally action to every exit of the embedded body.
-/

namespace LeuitCSS

/-- Transport kinds accepted by the vendor table (config.py connection_types). -/
inductive ConnType where
  | ssh
  | telnet
deriving DecidableEq

/-- One row of Config.VENDOR_COMMANDS (config.py lines 69-118). -/
structure VendorProfile where
  connection_types : List ConnType
  backup_command : String
  output_extension : String
  device_type : String
deriving DecidableEq

/-- The closed set of vendor tags of Config.SUPPORTED_VENDORS (config.py line 65). -/
inductive Vendor where
  | mikrotik
  | cisco
  | huawei
  | zte
  | juniper
  | generic
  | genericSaved
  | genericStartup
deriving DecidableEq

/-- The string key of a vendor, as used in the Python dicts. -/
def Vendor.key : Vendor → String
  | .mikrotik => "mikrotik"
  | .cisco => "cisco"
  | .huawei => "huawei"
  | .zte => "zte"
  | .juniper => "juniper"
  | .generic => "generic"
  | .genericSaved => "generic-saved"
  | .genericStartup => "generic-startup"

/-- Config.VENDOR_COMMANDS (config.py lines 69-118), the compiled vendor table. -/
def Config.VENDOR_COMMANDS : Vendor → VendorProfile
  | .mikrotik =>
    { connection_types := [.ssh], backup_command := "/export",
      output_extension := ".rsc", device_type := "mikrotik_routeros" }
  | .cisco =>
    { connection_types := [.ssh, .telnet], backup_command := "show running-config",
      output_extension := ".txt", device_type := "cisco_ios" }
  | .huawei =>
    { connection_types := [.ssh, .telnet], backup_command := "display current-configuration",
      output_extension := ".txt", device_type := "huawei" }
  | .zte =>
    { connection_types := [.ssh, .telnet], backup_command := "show running-config",
      output_extension := ".txt", device_type := "zte_zxros" }
  | .juniper =>
    { connection_types := [.ssh], backup_command := "show configuration | display set",
      output_extension := ".txt", device_type := "juniper_junos" }
  | .generic =>
    { connection_types := [.ssh, .telnet], backup_command := "show running-config",
      output_extension := ".txt", device_type := "cisco_ios" }
  | .genericSaved =>
    { connection_types := [.ssh, .telnet], backup_command := "show saved-config",
      output_extension := ".txt", device_type := "cisco_ios" }
  | .genericStartup =>
    { connection_types := [.ssh, .telnet], backup_command := "show startup-config",
      output_extension := ".txt", device_type := "cisco_ios" }

/-- Config.MAX_RETRY (config.py line 57): at most one retry, no looping. -/
def Config.MAX_RETRY : Nat := 1

/-- Python str.lower() on the ASCII strings this system compares (vendor
keys and the relay artifact name), written with structural recursion so that
concrete instances evaluate. -/
def pyLower (s : String) : String := ⟨s.data.map Char.toLower⟩

/-- Dictionary lookup Config.VENDOR_COMMANDS.get(vendor) on the string key
(collector.py line 60 applies .lower() before the lookup, modelled at the
call site). -/
def vendorOfKey (s : String) : Option Vendor :=
  if s = "mikrotik" then some .mikrotik
  else if s = "cisco" then some .cisco
  else if s = "huawei" then some .huawei
  else if s = "zte" then some .zte
  else if s = "juniper" then some .juniper
  else if s = "generic" then some .generic
  else if s = "generic-saved" then some .genericSaved
  else if s = "generic-startup" then some .genericStartup
  else none

/-- A filesystem path as a list of segments, relative to the storage base. -/
abbrev FPath := List String

/-- Filesystem state: the set of directories that exist, the files with their
string contents (first association wins, so writes shadow), and the paths
that have been chmod-ed read only. -/
structure FS where
  dirs : List FPath
  files : List (FPath × String)
  readOnly : List FPath
deriving DecidableEq

/-- The empty filesystem (fresh storage root). -/
def FS.empty : FS := { dirs := [], files := [], readOnly := [] }

/-- First-match association lookup used for file contents. -/
def assocLookup : List (FPath × String) → FPath → Option String
  | [], _ => none
  | (q, s) :: rest, p => if q = p then some s else assocLookup rest p

/-- Raw byte-level read of a file (Python open mode rb). -/
def FS.readFileRaw (fs : FS) (p : FPath) : Option String :=
  assocLookup fs.files p

/-- Write or overwrite a file at a path (Python open mode w on Linux writes
the string verbatim, since os.linesep is LF). -/
def FS.writeFile (fs : FS) (p : FPath) (s : String) : FS :=
  { fs with files := (p, s) :: fs.files }

/-- All nonempty prefixes of a path: the directories Path.mkdir with
parents set to true brings into existence. -/
def ancestors (p : FPath) : List FPath :=
  (List.range p.length).map fun k => p.take (k + 1)

/-- Path.mkdir(parents=True, exist_ok=False): raises FileExistsError when the
final directory already exists, otherwise creates it and its ancestors
(storage.py line 134). -/
def FS.mkdirParentsExclusive (fs : FS) (p : FPath) : Except Unit FS :=
  if p ∈ fs.dirs then .error ()
  else .ok { fs with dirs := ancestors p ++ fs.dirs }

/-- Universal-newline translation applied by Python text-mode reads:
CR LF and lone CR both become LF. -/
def univChars : List Char → List Char
  | [] => []
  | '\r' :: '\n' :: rest => '\n' :: univChars rest
  | '\r' :: rest => '\n' :: univChars rest
  | c :: rest => c :: univChars rest

/-- Universal-newline translation on strings. -/
def univNewlines (s : String) : String := ⟨univChars s.data⟩

/-- Python str.split()[0]: drop leading whitespace, take the first maximal
run of non-whitespace characters (storage.py line 249).  When the string is
all whitespace the source would raise IndexError; no execution reached by a
claim does so, and the model returns the empty token there. -/
def firstToken (s : String) : String :=
  ⟨(s.data.dropWhile Char.isWhitespace).takeWhile fun c => !c.isWhitespace⟩

/-- A datetime at microsecond precision, as handed to save_backup
(datetime.utcnow()).  The storage path renders it at second resolution. -/
structure DateTime where
  year : Nat
  month : Nat
  day : Nat
  hour : Nat
  minute : Nat
  second : Nat
  usec : Nat
deriving DecidableEq

/-- Zero-pad to two digits, as strftime %m %d %H %M %S do. -/
def pad2 (n : Nat) : String :=
  if n < 10 then "0" ++ toString n else toString n

/-- Zero-pad to four digits, as strftime %Y does. -/
def pad4 (n : Nat) : String :=
  if n < 10 then "000" ++ toString n
  else if n < 100 then "00" ++ toString n
  else if n < 1000 then "0" ++ toString n
  else toString n

/-- timestamp.strftime of the pattern %Y%m%d_%H%M%S (storage.py line 57):
second resolution, sub-second digits discarded. -/
def strftime_ts (t : DateTime) : String :=
  pad4 t.year ++ pad2 t.month ++ pad2 t.day ++ "_" ++
    pad2 t.hour ++ pad2 t.minute ++ pad2 t.second

/-- StorageManager._get_backup_path (storage.py lines 50-58), relative to the
base directory. -/
def get_backup_path (vendor : String) (device_id : Nat) (timestamp : DateTime) : FPath :=
  [vendor, toString device_id, strftime_ts timestamp]

/-- The metadata document of StorageManager._create_metadata
(storage.py lines 60-90). -/
structure Metadata where
  vendor : String
  device_id : Nat
  device_ip : String
  connection_type : String
  backup_command : String
  timestamp : DateTime
  execution_time_seconds : Nat
  status : String
  checksum_sha256 : String
  file_name : String
  leuitcss_version : String
deriving DecidableEq

/-- StorageManager._create_metadata (storage.py lines 60-90). -/
def create_metadata (vendor : String) (device_id : Nat) (device_ip : String)
    (connection_type : String) (backup_command : String) (timestamp : DateTime)
    (execution_time : Nat) (status : String) (checksum : String)
    (file_name : String) : Metadata :=
  { vendor := vendor, device_id := device_id, device_ip := device_ip,
    connection_type := connection_type, backup_command := backup_command,
    timestamp := timestamp, execution_time_seconds := execution_time,
    status := status, checksum_sha256 := checksum, file_name := file_name,
    leuitcss_version := "1.0.0" }

/-- Deterministic rendering of the metadata document, standing in for
json.dump (storage.py line 165).  No claim inspects the exact JSON text; the
rendering is injective enough for byte-for-byte preservation statements. -/
def Metadata.render (m : Metadata) : String :=
  "vendor: " ++ m.vendor ++ "\ndevice_id: " ++ toString m.device_id ++
    "\ndevice_ip: " ++ m.device_ip ++ "\nconnection_type: " ++ m.connection_type ++
    "\nbackup_command: " ++ m.backup_command ++ "\ntimestamp: " ++ strftime_ts m.timestamp ++
    "\nexecution_time_seconds: " ++ toString m.execution_time_seconds ++
    "\nstatus: " ++ m.status ++ "\nchecksum_sha256: " ++ m.checksum_sha256 ++
    "\nfile_name: " ++ m.file_name ++ "\nleuitcss_version: " ++ m.leuitcss_version

/-- The result dict of StorageManager.save_backup (storage.py lines 120-127,
180-185). -/
structure SaveResult where
  success : Bool
  file_path : Option FPath
  metadata_path : Option FPath
  checksum_path : Option FPath
  checksum : Option String
  file_size : Option Nat
  error : Option String
deriving DecidableEq

/-- A save call returns its result dict and the filesystem after the call. -/
structure SaveOutcome where
  res : SaveResult
  fs : FS
deriving DecidableEq

/-- The all-failure initial result dict of save_backup (storage.py 120-127). -/
def saveFailure (e : String) : SaveResult :=
  { success := false, file_path := none, metadata_path := none,
    checksum_path := none, checksum := none, file_size := none, error := some e }

/-- StorageManager.save_backup (storage.py lines 92-192).  The try block is
modelled step by step: the exclusive mkdir is the one fallible operation
(FileExistsError is folded into the immutability-violation error, exactly as
the except clause on line 187 does); the three file writes follow, then the
chmod 444 calls.  File writes are modelled infallible; the generic except
clause on line 189 is therefore only reachable through mkdir in the model.
The timestamp parameter is explicit; the source defaults it to
datetime.utcnow(), which callers of the model pass in. -/
def save_backup (sha256hex : String → String) (fs : FS) (vendor : String)
    (device_id : Nat) (_device_name : String) (device_ip : String)
    (connection_type : String) (backup_command : String) (config_output : String)
    (output_extension : String) (execution_time : Nat) (timestamp : DateTime) :
    SaveOutcome :=
  let backup_dir := get_backup_path vendor device_id timestamp
  match fs.mkdirParentsExclusive backup_dir with
  | .error _ =>
    { res := saveFailure "Backup directory already exists (immutability violation)",
      fs := fs }
  | .ok fs1 =>
    let checksum := sha256hex config_output
    let config_filename := "config" ++ output_extension
    let config_path := backup_dir ++ [config_filename]
    let metadata_path := backup_dir ++ ["metadata.json"]
    let checksum_path := backup_dir ++ ["checksum.sha256"]
    let fs2 := fs1.writeFile config_path config_output
    let metadata := create_metadata vendor device_id device_ip connection_type
      backup_command timestamp execution_time "success" checksum config_filename
    let fs3 := fs2.writeFile metadata_path metadata.render
    let fs4 := fs3.writeFile checksum_path (checksum ++ "  " ++ config_filename ++ "\n")
    let fs5 : FS :=
      { fs4 with readOnly := config_path :: metadata_path :: checksum_path :: fs4.readOnly }
    { res := { success := true, file_path := some config_path,
               metadata_path := some metadata_path, checksum_path := some checksum_path,
               checksum := some checksum,
               file_size := some config_output.utf8ByteSize, error := none },
      fs := fs5 }

/-- StorageManager.get_backup (storage.py lines 194-210): existence check,
then a text-mode read, which applies universal-newline translation. -/
def get_backup (fs : FS) (file_path : FPath) : Option String :=
  match fs.readFileRaw file_path with
  | none => none
  | some content => some (univNewlines content)

/-- StorageManager.verify_checksum (storage.py lines 231-255): false when the
content or the checksum record is missing; otherwise compare the first token
of the (text-mode read) checksum record with the digest recomputed over the
raw content bytes. -/
def verify_checksum (sha256hex : String → String) (fs : FS) (file_path : FPath) :
    Bool :=
  let checksum_path := file_path.dropLast ++ ["checksum.sha256"]
  match fs.readFileRaw file_path, fs.readFileRaw checksum_path with
  | some raw, some record =>
    decide (firstToken (univNewlines record) = sha256hex raw)
  | _, _ => false

/-- The per-class backup_command property of each adapter subclass
(adapters.py lines 237-239, 263-264, 299-300, 337-339, 577-578, 611-612,
639-640, 667-668).  For ZTE this is the template string of the property; the
actual relay command is built by build_ftp_upload_command. -/
def adapter_backup_command : Vendor → String
  | .mikrotik => "/export"
  | .cisco => "show running-config"
  | .huawei => "display current-configuration"
  | .zte => "file upload cfg-startup startrun.dat ftp"
  | .juniper => "show configuration | display set"
  | .generic => "show running-config"
  | .genericSaved => "show saved-config"
  | .genericStartup => "show startup-config"

/-- The result dict of VendorAdapter.backup and ZTEAdapter.backup
(adapters.py lines 186-193 and 487-495).  The timestamp field of the dict is
not modelled; no claim reads it. -/
structure AdapterResult where
  success : Bool
  output : Option String
  execution_time : Nat
  checksum : Option String
  error : Option String
  file_path : Option FPath
deriving DecidableEq

/-- An adapter call returns its result dict and the final value of the
connection field (None is modelled as false). -/
structure AdapterExit where
  result : AdapterResult
  connection : Bool
deriving DecidableEq

/-- Per-attempt environment for the inline backup flow: the outcome of
ConnectHandler (a raised ConnectionError message or a session) and of
send_command on a given command string (a raised exception message or the
captured output), plus the measured execution time. -/
structure VAdapterEnv where
  connect : Except String Unit
  send_command : String → Except String String
  exec_time : Nat

/-- VendorAdapter.disconnect (adapters.py lines 139-147): the finally clause
leaves the connection field None whenever it was set; when it was never set
the guard skips the body and the field is already None. -/
def VendorAdapter.disconnect (conn : Bool) : Bool :=
  if conn then false else conn

/-- The try block of VendorAdapter.backup (adapters.py lines 195-208):
connect, execute the hardcoded command, compute the digest.  Returns the
Except-folded outcome together with the connection state at the point the
block exits. -/
def VendorAdapter.tryBody (v : Vendor) (env : VAdapterEnv) :
    Except String (String × Nat) × Bool :=
  match env.connect with
  | .error e => (.error e, false)
  | .ok _ =>
    match env.send_command (adapter_backup_command v) with
    | .error e => (.error e, true)
    | .ok output => (.ok (output, env.exec_time), true)

/-- VendorAdapter.backup (adapters.py lines 174-216): run the try block, fold
any exception into the result dict, and run disconnect in the finally clause
on every exit. -/
def VendorAdapter.backup (sha256hex : String → String) (v : Vendor)
    (env : VAdapterEnv) : AdapterExit :=
  let (body, conn) := VendorAdapter.tryBody v env
  let result : AdapterResult :=
    match body with
    | .error e =>
      { success := false, output := none, execution_time := 0,
        checksum := none, error := some e, file_path := none }
    | .ok (output, exec_time) =>
      { success := true, output := some output, execution_time := exec_time,
        checksum := some (sha256hex output), error := none, file_path := none }
  { result := result, connection := VendorAdapter.disconnect conn }

/-- The dict of ZTEAdapter._get_ftp_config (adapters.py lines 357-370):
enabled mirrors the live systemd service check, the rest comes from
environment variables. -/
structure FtpConfig where
  enabled : Bool
  port : Nat
  user : String
  password : String
  root : String
deriving DecidableEq

/-- ZTEAdapter._build_ftp_upload_command (adapters.py lines 407-433): the
hardcoded template carrying the coordinator address, the device-scoped
relative path zte/<device_id>/, and the relay credentials. -/
def build_ftp_upload_command (device_id : Nat) (ftp : FtpConfig)
    (server_ip : String) : String :=
  "file upload cfg-startup startrun.dat ftp ipaddress " ++ server_ip ++
    " path zte/" ++ toString device_id ++ "/ user " ++ ftp.user ++
    " password " ++ ftp.password

/-- ZTEAdapter.FTP_POLL_TIMEOUT (adapters.py line 325): total wait budget in
seconds. -/
def ZTEAdapter.FTP_POLL_TIMEOUT : Nat := 120

/-- ZTEAdapter.FTP_POLL_INTERVAL (adapters.py line 326): poll interval in
seconds. -/
def ZTEAdapter.FTP_POLL_INTERVAL : Nat := 3

/-- ZTEAdapter._poll_for_file (adapters.py lines 449-475), with time in whole
seconds.  ex t says whether startrun.dat exists at elapsed time t; sz t is
its size then.  Each loop iteration at elapsed time t below the budget checks
existence; on existence it sleeps one settle second and accepts when the size
is positive (the accepted file reference is modelled by its acceptance time);
otherwise it sleeps the poll interval and loops.  Returns the outcome and the
elapsed time on exit. -/
def ZTEAdapter.poll_for_file (ex : Nat → Bool) (sz : Nat → Nat) (t : Nat) :
    Option Nat × Nat :=
  if t < ZTEAdapter.FTP_POLL_TIMEOUT then
    if ex t then
      if 0 < sz (t + 1) then (some (t + 1), t + 1)
      else ZTEAdapter.poll_for_file ex sz (t + 1 + ZTEAdapter.FTP_POLL_INTERVAL)
    else ZTEAdapter.poll_for_file ex sz (t + ZTEAdapter.FTP_POLL_INTERVAL)
  else (none, t)
termination_by ZTEAdapter.FTP_POLL_TIMEOUT - t
decreasing_by
  all_goals simp only [ZTEAdapter.FTP_POLL_TIMEOUT, ZTEAdapter.FTP_POLL_INTERVAL] at *
  all_goals omega

/-- Per-attempt environment for the ZTE relay flow: the live FTP service
state and configuration, the coordinator address resolution, the management
session outcomes, the poll outcome (the received file content, or none on
timeout), and the measured elapsed time. -/
structure ZteEnv where
  ftp_service_active : Bool
  ftp_port : Nat
  ftp_user : String
  ftp_password : String
  ftp_root : String
  server_ip : String
  connect : Except String Unit
  send_command : String → Except String String
  poll_file : Option String
  elapsed : Nat

/-- ZTEAdapter._get_ftp_config (adapters.py lines 357-370). -/
def ZTEAdapter.get_ftp_config (e : ZteEnv) : FtpConfig :=
  { enabled := e.ftp_service_active, port := e.ftp_port, user := e.ftp_user,
    password := e.ftp_password, root := e.ftp_root }

/-- The try block of ZTEAdapter.backup (adapters.py lines 500-547):
precondition checks, inbox clearing, session, relay trigger command, explicit
disconnect, poll, read.  Returns the Except-folded outcome (the received
content) together with the connection state at the point the block exits. -/
def ZTEAdapter.tryBody (device_id : Nat) (e : ZteEnv) :
    Except String String × Bool :=
  let ftp_config := ZTEAdapter.get_ftp_config e
  if ¬ ftp_config.enabled then
    (.error "FTP server is not enabled. Enable it in Web UI (ZTE FTP Ingestion)", false)
  else if ftp_config.password = "" then
    (.error "FTP password not configured in .env file", false)
  else
    match e.connect with
    | .error err => (.error err, false)
    | .ok _ =>
      match e.send_command (build_ftp_upload_command device_id ftp_config e.server_ip) with
      | .error err => (.error err, true)
      | .ok _ =>
        -- Disconnect SSH before polling (adapters.py line 527)
        let conn := VendorAdapter.disconnect true
        match e.poll_file with
        | none =>
          (.error ("FTP file not received within " ++
            toString ZTEAdapter.FTP_POLL_TIMEOUT ++ " seconds"), conn)
        | some content => (.ok content, conn)

/-- ZTEAdapter.backup (adapters.py lines 477-556): run the try block, fold
any exception into the result dict, and run disconnect in the finally clause
on every exit. -/
def ZTEAdapter.backup (sha256hex : String → String) (device_id : Nat)
    (e : ZteEnv) : AdapterExit :=
  let (body, conn) := ZTEAdapter.tryBody device_id e
  let result : AdapterResult :=
    match body with
    | .error err =>
      { success := false, output := none, execution_time := e.elapsed,
        checksum := none, error := some err, file_path := none }
    | .ok content =>
      { success := true, output := some content, execution_time := e.elapsed,
        checksum := some (sha256hex content),
        error := none,
        file_path := some [e.ftp_root, "zte", toString device_id, "startrun.dat"] }
  { result := result, connection := VendorAdapter.disconnect conn }

/-- BackupStatus (models.py lines 29-35). -/
inductive BackupStatus where
  | pending
  | running
  | success
  | failed
  | timeout
deriving DecidableEq

/-- The string key of a connection type, as stored on a device row. -/
def ConnType.key : ConnType → String
  | .ssh => "ssh"
  | .telnet => "telnet"

/-- A device row (models.py class Device), restricted to the fields the
collector reads. -/
structure Device where
  id : Nat
  name : String
  ip_address : String
  port : Option Nat
  username : String
  password : String
  enable_password : Option String
  connection_type : ConnType
  vendor : String

/-- A BackupHistory row (models.py class BackupHistory), restricted to the
fields the collector writes. -/
structure BackupHistoryRec where
  id : Nat
  device_id : Nat
  vendor : String
  backup_command : String
  status : BackupStatus
  retry_count : Nat
  completed_at : Option DateTime
  error_message : Option String
  file_path : Option FPath
  checksum : Option String
  file_size : Option Nat
  execution_time_seconds : Option Nat
deriving DecidableEq

/-- BackupCollector._create_backup_history (collector.py lines 74-95): a
fresh RUNNING record with retry_count 0 and no completion timestamp.  The
database id is modelled by the attempt index, fresh per invocation. -/
def create_backup_history (hid : Nat) (device : Device)
    (backup_command : String) : BackupHistoryRec :=
  { id := hid, device_id := device.id, vendor := device.vendor,
    backup_command := backup_command, status := .running, retry_count := 0,
    completed_at := none, error_message := none, file_path := none,
    checksum := none, file_size := none, execution_time_seconds := none }

/-- The substring test of collector.py line 111:
the lowercased error message contains the word timeout. -/
def containsTimeout (msg : String) : Bool :=
  (msg.toLower.splitOn "timeout").length != 1

/-- Python truthiness of execution_time in collector.py line 103: a zero
duration is folded to None, any other to int seconds. -/
def pyOptNat (n : Nat) : Option Nat :=
  if n = 0 then none else some n

/-- BackupCollector._update_backup_history (collector.py lines 97-118). -/
def update_backup_history (h : BackupHistoryRec) (success : Bool)
    (execution_time : Option Nat) (file_path : Option FPath)
    (file_size : Option Nat) (checksum : Option String)
    (error_message : Option String) (now : DateTime) : BackupHistoryRec :=
  let h1 := { h with completed_at := some now,
                     execution_time_seconds := execution_time }
  if success then
    { h1 with status := .success, file_path := file_path,
              file_size := file_size, checksum := checksum }
  else if containsTimeout (error_message.getD "") then
    { h1 with status := .timeout, error_message := error_message }
  else
    { h1 with status := .failed, error_message := error_message }

/-- Per-invocation environment of the collector: the adapter result of each
capture attempt (indexed by attempt number) and the wall clock at each
attempt (datetime.utcnow() as seen by the storage default timestamp). -/
structure CollectorEnv where
  attempt : Nat → AdapterResult
  now : Nat → DateTime

/-- The result dict of BackupCollector.backup_device
(collector.py lines 153-161). -/
structure CollectResult where
  success : Bool
  history_id : Option Nat
  file_path : Option FPath
  checksum : Option String
  error : Option String
  device_id : Nat
  device_name : String
deriving DecidableEq

/-- A backup_device call returns its result dict, the filesystem after the
call, the history records it created (this attempt first), and the number of
adapter.backup() invocations it made. -/
structure BDOutcome where
  result : CollectResult
  fs : FS
  histories : List BackupHistoryRec
  attempts : Nat
deriving DecidableEq

/-- The body of BackupCollector.backup_device (collector.py lines 128-261)
for one invocation.  retryRec carries the outcome of the recursive call
`backup_device(device, triggered_by, retry=False)` when the retry flag of
this invocation is set, and none when it is not; the source guard
`retry and history.retry_count < MAX_RETRY` is the match on retryRec
followed by the counter check.  Device status updates and audit logging are
external side effects not modelled.  The per-vendor adapter registry has
exactly the keys of the vendor table, so the ValueError branch of get_adapter
(collector.py lines 185-192) is unreachable once the vendor lookup on line
164 has succeeded, and is not modelled. -/
def backup_device_core (sha256hex : String → String) (env : CollectorEnv)
    (device : Device) (fs : FS) (i : Nat) (retryRec : Option BDOutcome) :
    BDOutcome :=
  let base : CollectResult :=
    { success := false, history_id := none, file_path := none, checksum := none,
      error := none, device_id := device.id, device_name := device.name }
  match vendorOfKey (pyLower device.vendor) with
  | none =>
    { result := { base with error := some ("Unsupported vendor: " ++ device.vendor) },
      fs := fs, histories := [], attempts := 0 }
  | some v =>
    let vendor_config := Config.VENDOR_COMMANDS v
    if device.connection_type ∈ vendor_config.connection_types then
      let history := create_backup_history i device vendor_config.backup_command
      let base1 := { base with history_id := some i }
      let backup_result := env.attempt i
      if backup_result.success then
        let so := save_backup sha256hex fs device.vendor device.id device.name
          device.ip_address device.connection_type.key vendor_config.backup_command
          (backup_result.output.getD "") vendor_config.output_extension
          backup_result.execution_time (env.now i)
        if so.res.success then
          { result := { base1 with
              success := true,
              file_path := so.res.file_path,
              checksum := so.res.checksum },
            fs := so.fs,
            histories := [update_backup_history history true
              (pyOptNat backup_result.execution_time) so.res.file_path
              so.res.file_size so.res.checksum none (env.now i)],
            attempts := 1 }
        else
          let errS := "Storage error: " ++ (so.res.error.getD "")
          { result := { base1 with error := some errS },
            fs := so.fs,
            histories := [update_backup_history history false none none none none
              (some errS) (env.now i)],
            attempts := 1 }
      else
        let err0 := backup_result.error.getD ""
        let noRetry : BDOutcome :=
          { result := { base1 with error := some err0 },
            fs := fs,
            histories := [update_backup_history history false
              (pyOptNat backup_result.execution_time) none none none
              (some err0) (env.now i)],
            attempts := 1 }
        match retryRec with
        | some rec =>
          if history.retry_count < Config.MAX_RETRY then
            let history1 := { history with retry_count := history.retry_count + 1 }
            if rec.result.success then
              { result := rec.result, fs := rec.fs,
                histories := history1 :: rec.histories,
                attempts := 1 + rec.attempts }
            else
              let errF := "Failed after retry: " ++ (rec.result.error.getD "")
              { result := { base1 with error := some errF },
                fs := rec.fs,
                histories := update_backup_history history1 false
                  (pyOptNat backup_result.execution_time) none none none
                  (some errF) (env.now i) :: rec.histories,
                attempts := 1 + rec.attempts }
          else noRetry
        | none => noRetry
    else
      { result := { base with error := some ("Connection type " ++
          device.connection_type.key ++ " not supported for " ++ device.vendor) },
        fs := fs, histories := [], attempts := 0 }

/-- BackupCollector.backup_device (collector.py lines 128-261).  When the
retry flag is set, the recursive call of line 245 is the same body with the
flag cleared, a fresh attempt index and history id, and the same filesystem
(adapter failure leaves storage untouched). -/
def backup_device (sha256hex : String → String) (env : CollectorEnv)
    (device : Device) (retry : Bool) (fs : FS) (i : Nat) : BDOutcome :=
  backup_device_core sha256hex env device fs i
    (if retry then some (backup_device_core sha256hex env device fs (i + 1) none)
     else none)

/-- The attribute names defined in the class body of StorageManager
(storage.py lines 22-340): a Python attribute access on a StorageManager
instance succeeds exactly for these names. -/
def storage_manager_methods : List String :=
  ["__init__", "_ensure_base_directory", "_get_backup_path", "_create_metadata",
   "save_backup", "get_backup", "get_metadata", "verify_checksum",
   "list_backups", "get_storage_stats", "get_absolute_path"]

/-- A device row as consulted by the ingestion handler query
(ftp_server.py lines 118-121). -/
structure IngestDevice where
  id : Nat
  name : String
  vendor : String
deriving DecidableEq

/-- The outcome of LeuitFTPHandler.on_file_received. -/
inductive IngestOutcome where
  | ignored_name
  | path_too_short
  | unknown_device
  | stored (path : FPath)
  | store_failed (errorMsg : String)
deriving DecidableEq

/-- The observable effect of one completed upload: the control outcome and
the final status of the backup-history record the handler created, if any. -/
structure IngestResult where
  outcome : IngestOutcome
  history_status : Option BackupStatus
deriving DecidableEq

/-- The device lookup of ftp_server.py lines 118-121: first device whose name
matches the folder name and whose vendor is zte. -/
def find_zte_device (devices : List IngestDevice) (nm : String) :
    Option IngestDevice :=
  devices.find? fun d => d.name == nm && d.vendor == "zte"

/-- LeuitFTPHandler.on_file_received plus _process_zte_backup
(ftp_server.py lines 75-187).  Steps, in source order: reject any filename
other than startrun.dat case-insensitively; reject paths too short to carry a
parent folder; take the device name from the immediate parent folder; look up
a zte device of that name; create a RUNNING history record; call
storage.store_backup.  The attribute lookup of store_backup on the
StorageManager instance raises AttributeError when the name is not among the
attributes of the class (it is not), the except clause of line 174 catches
it, and the history record is marked failed.  The branch in which the
attribute exists would store the file and mark the history successful; it is
kept to make the divergence provable. -/
def on_file_received (devices : List IngestDevice) (file : FPath)
    (_content : String) : IngestResult :=
  let name := (file.getLast?).getD ""
  if pyLower name ≠ "startrun.dat" then
    { outcome := .ignored_name, history_status := none }
  else if file.length < 2 then
    { outcome := .path_too_short, history_status := none }
  else
    let device_name := file.getD (file.length - 2) ""
    match find_zte_device devices device_name with
    | none => { outcome := .unknown_device, history_status := none }
    | some _device =>
      if "store_backup" ∈ storage_manager_methods then
        { outcome := .stored file, history_status := some .success }
      else
        { outcome := .store_failed
            "AttributeError: StorageManager object has no attribute store_backup",
          history_status := some .failed }

/-- The command string an adapter passes to connection.send_command during a
capture attempt: for every vendor but zte it is the backup_command property
sent by execute_backup (adapters.py line 165); for zte it is the relay
trigger command built per attempt (adapters.py lines 517-524). -/
def command_sent (v : Vendor) (device_id : Nat) (ftp : FtpConfig)
    (server_ip : String) : String :=
  match v with
  | .zte => build_ftp_upload_command device_id ftp server_ip
  | _ => adapter_backup_command v

/-- Concrete fixture: an injective stand-in digest function for witnesses and
counterexamples (the theorems themselves quantify over the digest). -/
def hash0 : String → String := fun s => "d" ++ s

/-- Concrete fixture: a timestamp. -/
def dt0 : DateTime := ⟨2026, 1, 2, 3, 4, 5, 0⟩

/-- Concrete fixture: FTP configuration with the service up. -/
def ftpCfg0 : FtpConfig :=
  { enabled := true, port := 21, user := "leuitcss", password := "pw",
    root := "/var/lib/leuitcss/ftp-ingestion" }

/-- Concrete fixture: a Cisco device row. -/
def deviceCisco : Device :=
  { id := 7, name := "R1", ip_address := "10.0.0.9", port := none,
    username := "u", password := "p", enable_password := none,
    connection_type := .ssh, vendor := "cisco" }

/-- Concrete fixture: a ZTE OLT device row. -/
def deviceZte : Device :=
  { id := 3, name := "OLT1", ip_address := "10.0.0.8", port := none,
    username := "u", password := "p", enable_password := none,
    connection_type := .telnet, vendor := "zte" }

/-- Concrete fixture: a per-attempt ZTE environment in which the FTP
ingestion service is not running (the relay precondition fails). -/
def zteEnvFtpDown : ZteEnv :=
  { ftp_service_active := false, ftp_port := 21, ftp_user := "leuitcss",
    ftp_password := "pw", ftp_root := "/var/lib/leuitcss/ftp-ingestion",
    server_ip := "10.0.0.1", connect := .ok (), send_command := fun _ => .ok "",
    poll_file := none, elapsed := 1 }

/-- Concrete fixture: a collector environment whose first attempt fails with
an authentication error and whose second attempt succeeds. -/
def envRetrySucceeds : CollectorEnv :=
  { attempt := fun n =>
      if n = 0 then
        { success := false, output := none, execution_time := 0,
          checksum := none, error := some "Authentication failed for 10.0.0.9",
          file_path := none }
      else
        { success := true, output := some "interface g0", execution_time := 2,
          checksum := some "c", error := none, file_path := none },
    now := fun _ => dt0 }

/-- Concrete fixture: a collector environment in which every adapter attempt
succeeds. -/
def envAllSucceed : CollectorEnv :=
  { attempt := fun _ =>
      { success := true, output := some "interface g0", execution_time := 2,
        checksum := some "c", error := none, file_path := none },
    now := fun _ => dt0 }

/-- Concrete fixture: a collector environment in which every adapter attempt
is the result of the ZTE adapter run against the FTP-service-down
environment, so every attempt fails with the relay precondition error. -/
def envZtePrecondition : CollectorEnv :=
  { attempt := fun _ => (ZTEAdapter.backup hash0 deviceZte.id zteEnvFtpDown).result,
    now := fun _ => dt0 }

/-- Concrete fixture: a filesystem in which the storage directory for the
Cisco fixture device at the fixture timestamp already exists. -/
def fsCollision : FS :=
  { dirs := [get_backup_path "cisco" 7 dt0], files := [], readOnly := [] }

/-!
Theorems.  One theorem per claim of the specification, with counterexamples
and witnesses where called for; helper lemmas are shared and carry no claim.
-/

/-- C1 counterexample: for the zte vendor the command issued to the device is
not the compiled vendor-table command, and two attempts for the same vendor
with different per-attempt input (here the device id) issue different command
strings, refuting the claim as stated. -/
theorem zte_command_varies_per_attempt :
    (command_sent Vendor.zte 1 ftpCfg0 "10.0.0.5" ==
      command_sent Vendor.zte 2 ftpCfg0 "10.0.0.5") = false ∧
    (command_sent Vendor.zte 1 ftpCfg0 "10.0.0.5" ==
      (Config.VENDOR_COMMANDS Vendor.zte).backup_command) = false ∧
    command_sent Vendor.zte 1 ftpCfg0 "10.0.0.5" =
      "file upload cfg-startup startrun.dat ftp ipaddress 10.0.0.5 path zte/1/ user leuitcss password pw" := by
  decide

/-- C1 (amended): for every vendor other than zte, the command string sent to
the device equals exactly the compiled vendor-table command and is not
influenced by any per-attempt input; for zte the command is the hardcoded
relay template parameterized by the device id, the coordinator address and
the relay credentials. -/
theorem vendor_command_fixed_except_zte (v : Vendor) (h : v ≠ Vendor.zte)
    (d₁ d₂ : Nat) (c₁ c₂ : FtpConfig) (s₁ s₂ : String) :
    command_sent v d₁ c₁ s₁ = command_sent v d₂ c₂ s₂ ∧
    command_sent v d₁ c₁ s₁ = (Config.VENDOR_COMMANDS v).backup_command ∧
    (∀ d c s, command_sent Vendor.zte d c s = build_ftp_upload_command d c s) := by
  refine ⟨?_, ?_, fun d c s => rfl⟩ <;>
    cases v <;>
      first
        | rfl
        | exact absurd rfl h

/-- C1 witness: the amended theorem applied to the cisco vendor at two
distinct per-attempt inputs. -/
theorem vendor_command_fixed_except_zte_witness :
    command_sent Vendor.cisco 1 ftpCfg0 "10.0.0.5" =
      command_sent Vendor.cisco 2
        { enabled := false, port := 2121, user := "x", password := "y", root := "/r" }
        "192.168.1.1" ∧
    command_sent Vendor.cisco 1 ftpCfg0 "10.0.0.5" =
      (Config.VENDOR_COMMANDS Vendor.cisco).backup_command ∧
    (∀ d c s, command_sent Vendor.zte d c s = build_ftp_upload_command d c s) :=
  vendor_command_fixed_except_zte Vendor.cisco (by decide) 1 2 ftpCfg0
    { enabled := false, port := 2121, user := "x", password := "y", root := "/r" }
    "10.0.0.5" "192.168.1.1"

/-- C7: on every execution of an adapter backup, inline or relay, and on
every error path, the connection field is None (false) when backup returns,
and the returned result dict is structured: the error field is empty exactly
on success and the checksum is present exactly on success.  The embedding
returns a result value on every path, mirroring that backup never propagates
an exception. -/
theorem adapter_backup_closes_session (sha : String → String) (v : Vendor)
    (env : VAdapterEnv) (device_id : Nat) (ze : ZteEnv) :
    (VendorAdapter.backup sha v env).connection = false ∧
    (VendorAdapter.backup sha v env).result.error.isNone =
      (VendorAdapter.backup sha v env).result.success ∧
    (VendorAdapter.backup sha v env).result.checksum.isSome =
      (VendorAdapter.backup sha v env).result.success ∧
    (ZTEAdapter.backup sha device_id ze).connection = false ∧
    (ZTEAdapter.backup sha device_id ze).result.error.isNone =
      (ZTEAdapter.backup sha device_id ze).result.success ∧
    (ZTEAdapter.backup sha device_id ze).result.checksum.isSome =
      (ZTEAdapter.backup sha device_id ze).result.success := by
  unfold VendorAdapter.backup ZTEAdapter.backup VendorAdapter.tryBody
    ZTEAdapter.tryBody VendorAdapter.disconnect
  refine ⟨?_, ?_, ?_, ?_, ?_, ?_⟩ <;> (repeat' split) <;> simp_all

/-- Helper: when the target file never exists, the poll loop walks the
budget in whole poll intervals and exits exactly at the budget. -/
theorem poll_no_file_aux (ex : Nat → Bool) (sz : Nat → Nat)
    (hex : ∀ u, ex u = false) :
    ∀ k t, ZTEAdapter.FTP_POLL_TIMEOUT - t ≤ k →
      t ≤ ZTEAdapter.FTP_POLL_TIMEOUT →
      (ZTEAdapter.FTP_POLL_TIMEOUT - t) % ZTEAdapter.FTP_POLL_INTERVAL = 0 →
      ZTEAdapter.poll_for_file ex sz t = (none, ZTEAdapter.FTP_POLL_TIMEOUT) := by
  have hT : ZTEAdapter.FTP_POLL_TIMEOUT = 120 := rfl
  have hI : ZTEAdapter.FTP_POLL_INTERVAL = 3 := rfl
  intro k
  induction k with
  | zero =>
    intro t h1 h2 _h3
    have ht : t = ZTEAdapter.FTP_POLL_TIMEOUT := by
      simp only [ZTEAdapter.FTP_POLL_TIMEOUT, ZTEAdapter.FTP_POLL_INTERVAL] at *; omega
    rw [ZTEAdapter.poll_for_file, ht]
    simp
  | succ k ih =>
    intro t h1 h2 h3
    by_cases hlt : t < ZTEAdapter.FTP_POLL_TIMEOUT
    · rw [ZTEAdapter.poll_for_file, if_pos hlt, hex t]
      simp only [Bool.false_eq_true, if_false]
      exact ih (t + ZTEAdapter.FTP_POLL_INTERVAL) (by simp only [ZTEAdapter.FTP_POLL_TIMEOUT, ZTEAdapter.FTP_POLL_INTERVAL] at *; omega) (by simp only [ZTEAdapter.FTP_POLL_TIMEOUT, ZTEAdapter.FTP_POLL_INTERVAL] at *; omega) (by simp only [ZTEAdapter.FTP_POLL_TIMEOUT, ZTEAdapter.FTP_POLL_INTERVAL] at *; omega)
    · have ht : t = ZTEAdapter.FTP_POLL_TIMEOUT := by
        simp only [ZTEAdapter.FTP_POLL_TIMEOUT] at *; omega
      rw [ZTEAdapter.poll_for_file, ht]
      simp

/-- Helper: whenever the poll loop accepts a file, the file existed at the
check time and had positive size after the one-second settle wait. -/
theorem poll_accept_aux (ex : Nat → Bool) (sz : Nat → Nat) :
    ∀ k t u tf, ZTEAdapter.FTP_POLL_TIMEOUT - t ≤ k →
      ZTEAdapter.poll_for_file ex sz t = (some u, tf) →
      ex (u - 1) = true ∧ 0 < sz u := by
  have hT : ZTEAdapter.FTP_POLL_TIMEOUT = 120 := rfl
  have hI : ZTEAdapter.FTP_POLL_INTERVAL = 3 := rfl
  intro k
  induction k with
  | zero =>
    intro t u tf h1 hp
    have hge : ¬ t < ZTEAdapter.FTP_POLL_TIMEOUT := by
      simp only [ZTEAdapter.FTP_POLL_TIMEOUT] at *; omega
    rw [ZTEAdapter.poll_for_file, if_neg hge] at hp
    simp at hp
  | succ k ih =>
    intro t u tf h1 hp
    by_cases hlt : t < ZTEAdapter.FTP_POLL_TIMEOUT
    · rw [ZTEAdapter.poll_for_file, if_pos hlt] at hp
      cases hex : ex t with
      | false =>
        rw [hex] at hp
        simp only [Bool.false_eq_true, if_false] at hp
        exact ih (t + ZTEAdapter.FTP_POLL_INTERVAL) u tf (by simp only [ZTEAdapter.FTP_POLL_TIMEOUT, ZTEAdapter.FTP_POLL_INTERVAL] at *; omega) hp
      | true =>
        rw [hex] at hp
        simp only [if_true] at hp
        by_cases hsz : 0 < sz (t + 1)
        · rw [if_pos hsz] at hp
          have hu : u = t + 1 := by
            have := congrArg Prod.fst hp
            simpa using this.symm
          subst hu
          simpa using ⟨hex, hsz⟩
        · rw [if_neg hsz] at hp
          exact ih (t + 1 + ZTEAdapter.FTP_POLL_INTERVAL) u tf (by simp only [ZTEAdapter.FTP_POLL_TIMEOUT, ZTEAdapter.FTP_POLL_INTERVAL] at *; omega) hp
    · rw [ZTEAdapter.poll_for_file, if_neg hlt] at hp
      simp at hp

/-- C6: with the compiled budget of 120 seconds and poll interval of
3 seconds, a poll in which the target file never appears terminates and
reports no file after exactly the wait budget, and a file is only ever
accepted when it existed at the check time and had size strictly greater
than zero after the one-second settle wait. -/
theorem zte_poll_bounded_wait :
    ZTEAdapter.FTP_POLL_TIMEOUT = 120 ∧ ZTEAdapter.FTP_POLL_INTERVAL = 3 ∧
    (∀ (ex : Nat → Bool) (sz : Nat → Nat), (∀ u, ex u = false) →
      ZTEAdapter.poll_for_file ex sz 0 = (none, ZTEAdapter.FTP_POLL_TIMEOUT)) ∧
    (∀ (ex : Nat → Bool) (sz : Nat → Nat) (u tf : Nat),
      ZTEAdapter.poll_for_file ex sz 0 = (some u, tf) →
      ex (u - 1) = true ∧ 0 < sz u) := by
  refine ⟨rfl, rfl, ?_, ?_⟩
  · intro ex sz hex
    exact poll_no_file_aux ex sz hex ZTEAdapter.FTP_POLL_TIMEOUT 0
      (by decide) (by decide) (by decide)
  · intro ex sz u tf hp
    exact poll_accept_aux ex sz ZTEAdapter.FTP_POLL_TIMEOUT 0 u tf (by decide) hp

/-- C6 witness: the theorem applied to the never-appearing-file environment,
and the acceptance conditions extracted from a concrete run in which the
file is present from the start with size one. -/
theorem zte_poll_bounded_wait_witness :
    ZTEAdapter.poll_for_file (fun _ => false) (fun _ => 0) 0 =
      (none, ZTEAdapter.FTP_POLL_TIMEOUT) ∧
    ((fun _ => true) (1 - 1) = true ∧ 0 < (fun _ => 1) 1) := by
  constructor
  · exact zte_poll_bounded_wait.2.2.1 (fun _ => false) (fun _ => 0) (fun _ => rfl)
  · refine zte_poll_bounded_wait.2.2.2 (fun _ => true) (fun _ => 1) 1 1 ?_
    rw [ZTEAdapter.poll_for_file]
    decide

/-- Helper: the character list of appending to the literal config prefix. -/
theorem config_append_data (ext : String) :
    ("config" ++ ext).data = 'c' :: 'o' :: 'n' :: 'f' :: 'i' :: 'g' :: ext.data := rfl

/-- Helper: the config filename never collides with the metadata filename. -/
theorem config_ne_metadata (ext : String) : ("config" ++ ext) ≠ "metadata.json" := by
  intro h
  have h2 := congrArg String.data h
  rw [config_append_data] at h2
  simpa using congrArg (fun l => l.head?) h2

/-- Helper: the config filename never collides with the checksum filename. -/
theorem config_ne_checksum (ext : String) : ("config" ++ ext) ≠ "checksum.sha256" := by
  intro h
  have h2 := congrArg String.data h
  rw [config_append_data] at h2
  simpa using congrArg (fun l => (l.drop 1).head?) h2

/-- Helper: sibling files in one backup directory have distinct paths. -/
theorem append_singleton_ne (dir : FPath) (a b : String) (h : a ≠ b) :
    dir ++ [a] ≠ dir ++ [b] := by
  intro hc
  exact h (by simpa using hc)

/-- Helper: association lookup skips an entry with a different key. -/
theorem assoc_cons_ne (q p : FPath) (s : String) (rest : List (FPath × String))
    (hne : q ≠ p) : assocLookup ((q, s) :: rest) p = assocLookup rest p := by
  simp [assocLookup, hne]

/-- Helper: association lookup finds the front entry. -/
theorem assoc_cons_eq (p : FPath) (s : String) (rest : List (FPath × String)) :
    assocLookup ((p, s) :: rest) p = some s := by
  simp [assocLookup]

/-- Helper: a nonempty path is among its own ancestors. -/
theorem mem_ancestors_self (p : FPath) (h : p ≠ []) : p ∈ ancestors p := by
  unfold ancestors
  refine List.mem_map.mpr ⟨p.length - 1, List.mem_range.mpr ?_, ?_⟩
  · have := List.length_pos.mpr h
    omega
  · have hlen := List.length_pos.mpr h
    rw [Nat.sub_add_cancel hlen]
    simp

/-- Helper: the backup directory path is never the empty path. -/
theorem get_backup_path_ne_nil (vendor : String) (device_id : Nat)
    (ts : DateTime) : get_backup_path vendor device_id ts ≠ [] := by
  simp [get_backup_path]

/-- Helper: the fully evaluated successful save (exclusive mkdir succeeds). -/
theorem save_backup_success_case (sha : String → String) (fs : FS)
    (vendor : String) (device_id : Nat) (dn ip ct bc co ext : String)
    (x : Nat) (ts : DateTime)
    (h : get_backup_path vendor device_id ts ∉ fs.dirs) :
    save_backup sha fs vendor device_id dn ip ct bc co ext x ts =
      { res := { success := true,
                 file_path := some (get_backup_path vendor device_id ts ++ ["config" ++ ext]),
                 metadata_path := some (get_backup_path vendor device_id ts ++ ["metadata.json"]),
                 checksum_path := some (get_backup_path vendor device_id ts ++ ["checksum.sha256"]),
                 checksum := some (sha co),
                 file_size := some co.utf8ByteSize, error := none },
        fs := { dirs := ancestors (get_backup_path vendor device_id ts) ++ fs.dirs,
                files :=
                  (get_backup_path vendor device_id ts ++ ["checksum.sha256"],
                    sha co ++ "  " ++ ("config" ++ ext) ++ "\n") ::
                  (get_backup_path vendor device_id ts ++ ["metadata.json"],
                    (create_metadata vendor device_id ip ct bc ts x "success"
                      (sha co) ("config" ++ ext)).render) ::
                  (get_backup_path vendor device_id ts ++ ["config" ++ ext], co) ::
                  fs.files,
                readOnly :=
                  (get_backup_path vendor device_id ts ++ ["config" ++ ext]) ::
                  (get_backup_path vendor device_id ts ++ ["metadata.json"]) ::
                  (get_backup_path vendor device_id ts ++ ["checksum.sha256"]) ::
                  fs.readOnly } } := by
  unfold save_backup FS.mkdirParentsExclusive
  simp [h, FS.writeFile]

/-- Helper: the fully evaluated colliding save (exclusive mkdir raises). -/
theorem save_backup_collision_case (sha : String → String) (fs : FS)
    (vendor : String) (device_id : Nat) (dn ip ct bc co ext : String)
    (x : Nat) (ts : DateTime)
    (h : get_backup_path vendor device_id ts ∈ fs.dirs) :
    save_backup sha fs vendor device_id dn ip ct bc co ext x ts =
      { res := saveFailure "Backup directory already exists (immutability violation)",
        fs := fs } := by
  unfold save_backup FS.mkdirParentsExclusive
  simp [h]

/-- C10: save_backup is total over errors at its interface: on every input it
yields a result with the success flag set and no error, or with the flag
cleared and a non-null error string; the one fallible internal operation, the
exclusive directory creation, is folded into the returned result rather than
propagated. -/
theorem save_backup_total_result (sha : String → String) (fs : FS)
    (vendor : String) (device_id : Nat) (dn ip ct bc co ext : String)
    (x : Nat) (ts : DateTime) :
    ((save_backup sha fs vendor device_id dn ip ct bc co ext x ts).res.success = true ∧
      (save_backup sha fs vendor device_id dn ip ct bc co ext x ts).res.error = none) ∨
    ((save_backup sha fs vendor device_id dn ip ct bc co ext x ts).res.success = false ∧
      (save_backup sha fs vendor device_id dn ip ct bc co ext x ts).res.error =
        some "Backup directory already exists (immutability violation)") := by
  by_cases h : get_backup_path vendor device_id ts ∈ fs.dirs
  · right
    rw [save_backup_collision_case sha fs vendor device_id dn ip ct bc co ext x ts h]
    exact ⟨rfl, rfl⟩
  · left
    rw [save_backup_success_case sha fs vendor device_id dn ip ct bc co ext x ts h]
    exact ⟨rfl, rfl⟩

/-- C4: for a fixed vendor, device id and second-resolution timestamp, a
second save never succeeds: it returns the immutability-violation error and
leaves the filesystem exactly as the first save left it; when the first save
succeeded, the three files it wrote still hold the written bytes after the
second call. -/
theorem save_backup_immutability (sha : String → String) (fs : FS)
    (vendor : String) (device_id : Nat) (ts : DateTime)
    (dn₁ dn₂ ip₁ ip₂ ct₁ ct₂ bc₁ bc₂ co₁ co₂ ext₁ ext₂ : String) (x₁ x₂ : Nat) :
    (save_backup sha (save_backup sha fs vendor device_id dn₁ ip₁ ct₁ bc₁ co₁ ext₁ x₁ ts).fs
      vendor device_id dn₂ ip₂ ct₂ bc₂ co₂ ext₂ x₂ ts).res.success = false ∧
    (save_backup sha (save_backup sha fs vendor device_id dn₁ ip₁ ct₁ bc₁ co₁ ext₁ x₁ ts).fs
      vendor device_id dn₂ ip₂ ct₂ bc₂ co₂ ext₂ x₂ ts).res.error =
        some "Backup directory already exists (immutability violation)" ∧
    (save_backup sha (save_backup sha fs vendor device_id dn₁ ip₁ ct₁ bc₁ co₁ ext₁ x₁ ts).fs
      vendor device_id dn₂ ip₂ ct₂ bc₂ co₂ ext₂ x₂ ts).fs =
      (save_backup sha fs vendor device_id dn₁ ip₁ ct₁ bc₁ co₁ ext₁ x₁ ts).fs ∧
    ((save_backup sha fs vendor device_id dn₁ ip₁ ct₁ bc₁ co₁ ext₁ x₁ ts).res.success = true →
      (save_backup sha (save_backup sha fs vendor device_id dn₁ ip₁ ct₁ bc₁ co₁ ext₁ x₁ ts).fs
        vendor device_id dn₂ ip₂ ct₂ bc₂ co₂ ext₂ x₂ ts).fs.readFileRaw
          (get_backup_path vendor device_id ts ++ ["config" ++ ext₁]) = some co₁ ∧
      (save_backup sha (save_backup sha fs vendor device_id dn₁ ip₁ ct₁ bc₁ co₁ ext₁ x₁ ts).fs
        vendor device_id dn₂ ip₂ ct₂ bc₂ co₂ ext₂ x₂ ts).fs.readFileRaw
          (get_backup_path vendor device_id ts ++ ["metadata.json"]) =
          some (create_metadata vendor device_id ip₁ ct₁ bc₁ ts x₁ "success"
            (sha co₁) ("config" ++ ext₁)).render ∧
      (save_backup sha (save_backup sha fs vendor device_id dn₁ ip₁ ct₁ bc₁ co₁ ext₁ x₁ ts).fs
        vendor device_id dn₂ ip₂ ct₂ bc₂ co₂ ext₂ x₂ ts).fs.readFileRaw
          (get_backup_path vendor device_id ts ++ ["checksum.sha256"]) =
          some (sha co₁ ++ "  " ++ ("config" ++ ext₁) ++ "\n")) := by
  by_cases h : get_backup_path vendor device_id ts ∈ fs.dirs
  · rw [save_backup_collision_case sha fs vendor device_id dn₁ ip₁ ct₁ bc₁ co₁ ext₁ x₁ ts h]
    rw [save_backup_collision_case sha fs vendor device_id dn₂ ip₂ ct₂ bc₂ co₂ ext₂ x₂ ts h]
    exact ⟨rfl, rfl, rfl, fun hs => by simp [saveFailure] at hs⟩
  · rw [save_backup_success_case sha fs vendor device_id dn₁ ip₁ ct₁ bc₁ co₁ ext₁ x₁ ts h]
    have hmem : get_backup_path vendor device_id ts ∈
        ancestors (get_backup_path vendor device_id ts) ++ fs.dirs :=
      List.mem_append_left _
        (mem_ancestors_self _ (get_backup_path_ne_nil vendor device_id ts))
    rw [save_backup_collision_case sha _ vendor device_id dn₂ ip₂ ct₂ bc₂ co₂ ext₂ x₂ ts hmem]
    refine ⟨rfl, rfl, rfl, fun _ => ⟨?_, ?_, ?_⟩⟩
    · show assocLookup _ _ = _
      rw [assoc_cons_ne _ _ _ _
          (append_singleton_ne _ _ _ fun hc => config_ne_checksum ext₁ hc.symm),
        assoc_cons_ne _ _ _ _
          (append_singleton_ne _ _ _ fun hc => config_ne_metadata ext₁ hc.symm),
        assoc_cons_eq]
    · show assocLookup _ _ = _
      rw [assoc_cons_ne _ _ _ _
          (append_singleton_ne _ _ _ (by decide : ("checksum.sha256" : String) ≠ "metadata.json")),
        assoc_cons_eq]
    · show assocLookup _ _ = _
      rw [assoc_cons_eq]

/-- C4 witness: the theorem applied at a concrete first-save-succeeds input. -/
theorem save_backup_immutability_witness :
    (save_backup hash0 FS.empty "cisco" 7 "R1" "10.0.0.9" "ssh"
      "show running-config" "abc" ".txt" 2 dt0).res.success = true ∧
    (save_backup hash0 (save_backup hash0 FS.empty "cisco" 7 "R1" "10.0.0.9" "ssh"
        "show running-config" "abc" ".txt" 2 dt0).fs
      "cisco" 7 "R1b" "10.0.0.9" "ssh" "show running-config" "xyz" ".txt" 3 dt0).res.success = false ∧
    (save_backup hash0 (save_backup hash0 FS.empty "cisco" 7 "R1" "10.0.0.9" "ssh"
        "show running-config" "abc" ".txt" 2 dt0).fs
      "cisco" 7 "R1b" "10.0.0.9" "ssh" "show running-config" "xyz" ".txt" 3 dt0).fs.readFileRaw
      (get_backup_path "cisco" 7 dt0 ++ ["config" ++ ".txt"]) = some "abc" := by
  have h := save_backup_immutability hash0 FS.empty "cisco" 7 dt0 "R1" "R1b"
    "10.0.0.9" "10.0.0.9" "ssh" "ssh" "show running-config" "show running-config"
    "abc" "xyz" ".txt" ".txt" 2 3
  exact ⟨by decide, h.1, (h.2.2.2 (by decide)).1⟩

/-- Helper: translation of a cons with a non-carriage-return head. -/
theorem univChars_cons_ne_cr (c : Char) (l : List Char) (hc : c ≠ '\r') :
    univChars (c :: l) = c :: univChars l := by
  cases l with
  | nil => simp [univChars, hc]
  | cons d t =>
    by_cases hd : d = '\n' <;> simp [univChars, hc, hd]

/-- Helper: universal-newline translation fixes carriage-return-free text. -/
theorem univChars_no_cr (l : List Char) (h : '\r' ∉ l) : univChars l = l := by
  induction l with
  | nil => rfl
  | cons c t ih =>
    have hc : c ≠ '\r' := by
      intro e
      exact h (e ▸ List.mem_cons_self c t)
    rw [univChars_cons_ne_cr c t hc, ih fun m => h (List.mem_cons_of_mem _ m)]

/-- Helper: translation distributes over an append with a clean left part. -/
theorem univChars_append_no_cr (l₁ l₂ : List Char) (h : '\r' ∉ l₁) :
    univChars (l₁ ++ l₂) = l₁ ++ univChars l₂ := by
  induction l₁ with
  | nil => simp
  | cons c t ih =>
    have hc : c ≠ '\r' := by
      intro e
      exact h (e ▸ List.mem_cons_self c t)
    rw [List.cons_append, univChars_cons_ne_cr c _ hc,
      ih fun m => h (List.mem_cons_of_mem _ m)]
    rfl

/-- Helper: a list of non-whitespace characters contains no carriage return. -/
theorem no_ws_no_cr (l : List Char) (hws : ∀ c ∈ l, ¬ c.isWhitespace) :
    '\r' ∉ l :=
  fun m => hws _ m (by decide)

/-- Helper: dropWhile does not strip a leading non-whitespace run. -/
theorem dropWhile_no_ws_head (l r : List Char) (hne : l ≠ [])
    (hws : ∀ c ∈ l, ¬ c.isWhitespace) :
    (l ++ r).dropWhile Char.isWhitespace = l ++ r := by
  cases l with
  | nil => exact absurd rfl hne
  | cons c t =>
    rw [List.cons_append, List.dropWhile_cons]
    simp [hws c (List.mem_cons_self c t)]

/-- Helper: takeWhile collects a whitespace-free run up to the first space. -/
theorem takeWhile_no_ws (l : List Char) (hws : ∀ c ∈ l, ¬ c.isWhitespace)
    (r : List Char) :
    (l ++ ' ' :: r).takeWhile (fun c => !c.isWhitespace) = l := by
  induction l with
  | nil => simp
  | cons c t ih =>
    rw [List.cons_append, List.takeWhile_cons]
    simp only [hws c (List.mem_cons_self c t), Bool.not_eq_true,
      Bool.not_false, if_true]
    rw [ih fun d m => hws d (List.mem_cons_of_mem _ m)]

/-- Helper: the first token of the translated checksum record is the digest,
whenever the digest is a nonempty whitespace-free string. -/
theorem firstToken_hash_record (H f : String) (hne : H.data ≠ [])
    (hws : ∀ c ∈ H.data, ¬ c.isWhitespace) :
    firstToken (univNewlines (H ++ "  " ++ f ++ "\n")) = H := by
  have hdata : (H ++ "  " ++ f ++ "\n").data =
      H.data ++ (' ' :: ' ' :: (f.data ++ ['\n'])) := by
    show ((H.data ++ [' ', ' ']) ++ f.data) ++ ['\n'] = _
    simp
  rw [univNewlines, hdata,
    univChars_append_no_cr _ _ (no_ws_no_cr _ hws),
    univChars_cons_ne_cr ' ' _ (by decide)]
  rw [firstToken]
  show String.mk (((H.data ++ ' ' :: univChars (' ' :: (f.data ++ ['\n']))).dropWhile
    Char.isWhitespace).takeWhile fun c => !c.isWhitespace) = H
  rw [dropWhile_no_ws_head _ _ hne hws, takeWhile_no_ws _ hws]

/-- C5 counterexample: a configuration string containing a CR LF sequence is
saved byte for byte, but get_backup returns it with the carriage return
translated away, so the round trip is not byte-identical as claimed. -/
theorem storage_roundtrip_crlf_counterexample :
    (save_backup hash0 FS.empty "cisco" 7 "R1" "10.0.0.9" "ssh"
      "show running-config" "a\r\nb" ".txt" 2 dt0).res.success = true ∧
    get_backup (save_backup hash0 FS.empty "cisco" 7 "R1" "10.0.0.9" "ssh"
        "show running-config" "a\r\nb" ".txt" 2 dt0).fs
      (get_backup_path "cisco" 7 dt0 ++ ["config" ++ ".txt"]) = some "a\nb" ∧
    (("a\nb" : String) == "a\r\nb") = false := by
  decide

/-- C5 (amended): for every configuration string free of carriage returns, a
successful save_backup followed by get_backup on the returned file path
returns the saved content exactly (in general get_backup applies
universal-newline translation to the saved bytes); verify_checksum returns
true immediately after the save, and false once the stored content bytes are
mutated to bytes with a different digest, provided the digest is a nonempty
whitespace-free string as a SHA-256 hex digest always is. -/
theorem storage_roundtrip_verify (sha : String → String) (fs : FS)
    (vendor : String) (device_id : Nat) (dn ip ct bc co ext : String)
    (x : Nat) (ts : DateTime)
    (hsucc : (save_backup sha fs vendor device_id dn ip ct bc co ext x ts).res.success = true)
    (hnr : '\r' ∉ co.data)
    (hne : (sha co).data ≠ [])
    (hws : ∀ c ∈ (sha co).data, ¬ c.isWhitespace) :
    (save_backup sha fs vendor device_id dn ip ct bc co ext x ts).res.file_path =
      some (get_backup_path vendor device_id ts ++ ["config" ++ ext]) ∧
    get_backup (save_backup sha fs vendor device_id dn ip ct bc co ext x ts).fs
      (get_backup_path vendor device_id ts ++ ["config" ++ ext]) = some co ∧
    verify_checksum sha (save_backup sha fs vendor device_id dn ip ct bc co ext x ts).fs
      (get_backup_path vendor device_id ts ++ ["config" ++ ext]) = true ∧
    (∀ m, sha m ≠ sha co →
      verify_checksum sha
        ((save_backup sha fs vendor device_id dn ip ct bc co ext x ts).fs.writeFile
          (get_backup_path vendor device_id ts ++ ["config" ++ ext]) m)
        (get_backup_path vendor device_id ts ++ ["config" ++ ext]) = false) := by
  have hdir : get_backup_path vendor device_id ts ∉ fs.dirs := by
    intro hmem
    rw [save_backup_collision_case sha fs vendor device_id dn ip ct bc co ext x ts hmem]
      at hsucc
    simp [saveFailure] at hsucc
  rw [save_backup_success_case sha fs vendor device_id dn ip ct bc co ext x ts hdir]
  have hdrop : (get_backup_path vendor device_id ts ++ ["config" ++ ext]).dropLast =
      get_backup_path vendor device_id ts := by simp
  have hcfg_cs : (get_backup_path vendor device_id ts ++ ["checksum.sha256"]) ≠
      (get_backup_path vendor device_id ts ++ ["config" ++ ext]) :=
    append_singleton_ne _ _ _ fun hc => config_ne_checksum ext hc.symm
  have hcfg_md : (get_backup_path vendor device_id ts ++ ["metadata.json"]) ≠
      (get_backup_path vendor device_id ts ++ ["config" ++ ext]) :=
    append_singleton_ne _ _ _ fun hc => config_ne_metadata ext hc.symm
  refine ⟨rfl, ?_, ?_, ?_⟩
  · unfold get_backup FS.readFileRaw
    dsimp only
    rw [assoc_cons_ne _ _ _ _ hcfg_cs, assoc_cons_ne _ _ _ _ hcfg_md, assoc_cons_eq]
    show some (univNewlines co) = some co
    rw [univNewlines, univChars_no_cr co.data hnr]
  · unfold verify_checksum FS.readFileRaw
    dsimp only
    rw [hdrop]
    rw [assoc_cons_ne _ _ _ _ hcfg_cs, assoc_cons_ne _ _ _ _ hcfg_md, assoc_cons_eq,
      assoc_cons_eq]
    show decide (firstToken (univNewlines (sha co ++ "  " ++ ("config" ++ ext) ++ "\n")) =
      sha co) = true
    rw [firstToken_hash_record (sha co) ("config" ++ ext) hne hws]
    simp
  · intro m hm
    unfold verify_checksum FS.readFileRaw FS.writeFile
    dsimp only
    rw [hdrop]
    rw [assoc_cons_eq,
      assoc_cons_ne _ _ _ _ hcfg_cs.symm,
      assoc_cons_eq]
    show decide (firstToken (univNewlines (sha co ++ "  " ++ ("config" ++ ext) ++ "\n")) =
      sha m) = false
    rw [firstToken_hash_record (sha co) ("config" ++ ext) hne hws]
    exact decide_eq_false fun e => hm e.symm

/-- C5 witness: the amended theorem applied at a concrete carriage-return-free
configuration and an injective digest stand-in, including a mutation. -/
theorem storage_roundtrip_verify_witness :
    get_backup (save_backup hash0 FS.empty "cisco" 7 "R1" "10.0.0.9" "ssh"
        "show running-config" "abc" ".txt" 2 dt0).fs
      (get_backup_path "cisco" 7 dt0 ++ ["config" ++ ".txt"]) = some "abc" ∧
    verify_checksum hash0 (save_backup hash0 FS.empty "cisco" 7 "R1" "10.0.0.9" "ssh"
        "show running-config" "abc" ".txt" 2 dt0).fs
      (get_backup_path "cisco" 7 dt0 ++ ["config" ++ ".txt"]) = true ∧
    verify_checksum hash0
      ((save_backup hash0 FS.empty "cisco" 7 "R1" "10.0.0.9" "ssh"
          "show running-config" "abc" ".txt" 2 dt0).fs.writeFile
        (get_backup_path "cisco" 7 dt0 ++ ["config" ++ ".txt"]) "zzz")
      (get_backup_path "cisco" 7 dt0 ++ ["config" ++ ".txt"]) = false := by
  have h := storage_roundtrip_verify hash0 FS.empty "cisco" 7 "R1" "10.0.0.9" "ssh"
    "show running-config" "abc" ".txt" 2 dt0 (by decide) (by decide) (by decide)
    (by decide)
  exact ⟨h.2.1, h.2.2.1, h.2.2.2 "zzz" (by decide)⟩

/-- Helper: updating a history record never changes its retry counter. -/
theorem update_retry_count (h : BackupHistoryRec) (s : Bool) (e : Option Nat)
    (fp : Option FPath) (fsz : Option Nat) (ck : Option String)
    (em : Option String) (now : DateTime) :
    (update_backup_history h s e fp fsz ck em now).retry_count = h.retry_count := by
  unfold update_backup_history
  dsimp only
  repeat' split
  all_goals rfl

/-- Helper: a non-retrying collector invocation makes at most one attempt. -/
theorem core_none_attempts (sha : String → String) (env : CollectorEnv)
    (device : Device) (fs : FS) (i : Nat) :
    (backup_device_core sha env device fs i none).attempts ≤ 1 := by
  unfold backup_device_core
  dsimp only
  repeat' split
  all_goals simp

/-- Helper: a retry-armed invocation makes at most one attempt of its own on
top of whatever the recursion reports. -/
theorem core_some_attempts (sha : String → String) (env : CollectorEnv)
    (device : Device) (fs : FS) (i : Nat) (rec : BDOutcome) :
    (backup_device_core sha env device fs i (some rec)).attempts ≤ 1 + rec.attempts := by
  unfold backup_device_core
  dsimp only
  repeat' split
  all_goals simp

/-- Helper: every history record of a non-retrying invocation has a zero
retry counter. -/
theorem core_none_histories (sha : String → String) (env : CollectorEnv)
    (device : Device) (fs : FS) (i : Nat) :
    ∀ h ∈ (backup_device_core sha env device fs i none).histories,
      h.retry_count = 0 := by
  unfold backup_device_core
  dsimp only
  intro h hm
  repeat' split at hm
  all_goals
    first
      | exact absurd hm (List.not_mem_nil _)
      | (rcases List.mem_cons.mp hm with hh | hh
         · subst hh
           simp [update_retry_count, create_backup_history]
         · exact absurd hh (List.not_mem_nil _))

/-- Helper: every history record of a retry-armed invocation has a retry
counter of at most one, given the recursion produced zero counters. -/
theorem core_some_histories (sha : String → String) (env : CollectorEnv)
    (device : Device) (fs : FS) (i : Nat) (rec : BDOutcome)
    (hrec : ∀ h ∈ rec.histories, h.retry_count = 0) :
    ∀ h ∈ (backup_device_core sha env device fs i (some rec)).histories,
      h.retry_count ≤ 1 := by
  unfold backup_device_core
  dsimp only
  intro h hm
  repeat' split at hm
  all_goals
    first
      | exact absurd hm (List.not_mem_nil _)
      | (rcases List.mem_cons.mp hm with hh | hh
         · subst hh
           simp [update_retry_count, create_backup_history]
         · first
             | exact absurd hh (List.not_mem_nil _)
             | simp [hrec _ hh])

/-- C2: a failed capture attempt is retried at most once: for every device
and environment, a retry-armed backup_device makes at most MAX_RETRY + 1
adapter attempts, a non-retrying invocation (the retry itself) makes at most
one, and every history record satisfies retry_count bounded by MAX_RETRY
(with MAX_RETRY compiled to 1). -/
theorem collector_retry_cap (sha : String → String) (env : CollectorEnv)
    (device : Device) (retry : Bool) (fs : FS) (i : Nat) :
    (backup_device sha env device retry fs i).attempts ≤ Config.MAX_RETRY + 1 ∧
    (backup_device sha env device false fs i).attempts ≤ 1 ∧
    ((backup_device sha env device retry fs i).histories.all
      fun h => h.retry_count ≤ Config.MAX_RETRY) = true := by
  refine ⟨?_, ?_, ?_⟩
  · unfold backup_device
    cases retry
    · simp only [Bool.false_eq_true, if_false]
      exact le_trans (core_none_attempts sha env device fs i) (by decide)
    · simp only [if_true]
      refine le_trans (core_some_attempts sha env device fs i _) ?_
      have := core_none_attempts sha env device fs (i + 1)
      simp only [Config.MAX_RETRY]
      omega
  · exact le_trans (core_none_attempts sha env device fs i) le_rfl
  · rw [List.all_eq_true]
    intro h hm
    simp only [decide_eq_true_eq, Config.MAX_RETRY]
    unfold backup_device at hm
    cases retry
    · simp only [Bool.false_eq_true, if_false] at hm
      exact le_of_eq (core_none_histories sha env device fs i h hm) |>.trans (by omega)
    · simp only [if_true] at hm
      exact core_some_histories sha env device fs i _
        (core_none_histories sha env device fs (i + 1)) h hm

/-- Helper: with a known vendor and permitted transport, a non-retrying
invocation makes exactly one adapter attempt. -/
theorem core_none_attempts_eq (sha : String → String) (env : CollectorEnv)
    (device : Device) (fs : FS) (j : Nat) (v : Vendor)
    (hv : vendorOfKey (pyLower device.vendor) = some v)
    (hc : device.connection_type ∈ (Config.VENDOR_COMMANDS v).connection_types) :
    (backup_device_core sha env device fs j none).attempts = 1 := by
  unfold backup_device_core
  rw [hv]
  dsimp only
  simp only [hc, if_true]
  repeat' split
  all_goals rfl

/-- Helper: with a known vendor, a permitted transport and a failed adapter
attempt, a retry-armed invocation always takes the retry branch, whatever the
error of the failed attempt was. -/
theorem core_some_attempts_eq (sha : String → String) (env : CollectorEnv)
    (device : Device) (fs : FS) (i : Nat) (rec : BDOutcome) (v : Vendor)
    (hv : vendorOfKey (pyLower device.vendor) = some v)
    (hc : device.connection_type ∈ (Config.VENDOR_COMMANDS v).connection_types)
    (h1 : (env.attempt i).success = false) :
    (backup_device_core sha env device fs i (some rec)).attempts = 1 + rec.attempts := by
  unfold backup_device_core
  rw [hv]
  dsimp only
  simp only [hc, if_true, h1, Bool.false_eq_true, if_false, Config.MAX_RETRY]
  repeat' split
  all_goals simp_all [create_backup_history]

/-- Helper: with a known vendor, a permitted transport, a successful capture
and a colliding storage directory, the invocation reports a storage error
without any second adapter attempt, whatever the retry argument was. -/
theorem core_storage_fail_eval (sha : String → String) (env : CollectorEnv)
    (device : Device) (fs : FS) (i : Nat) (retryRec : Option BDOutcome) (v : Vendor)
    (hv : vendorOfKey (pyLower device.vendor) = some v)
    (hc : device.connection_type ∈ (Config.VENDOR_COMMANDS v).connection_types)
    (h2 : (env.attempt i).success = true)
    (hcol : get_backup_path device.vendor device.id (env.now i) ∈ fs.dirs) :
    (backup_device_core sha env device fs i retryRec).attempts = 1 ∧
    (backup_device_core sha env device fs i retryRec).result.success = false ∧
    (backup_device_core sha env device fs i retryRec).result.error =
      some "Storage error: Backup directory already exists (immutability violation)" := by
  unfold backup_device_core
  rw [hv]
  dsimp only
  rw [save_backup_collision_case sha fs device.vendor device.id device.name
    device.ip_address device.connection_type.key (Config.VENDOR_COMMANDS v).backup_command
    ((env.attempt i).output.getD "") (Config.VENDOR_COMMANDS v).output_extension
    (env.attempt i).execution_time (env.now i) hcol]
  simp [hc, h2, saveFailure]

/-- C3 counterexample: the ZTE relay precondition failure (FTP ingestion
service not running) surfaces as an ordinary failed adapter result, and the
collector retries it: a second adapter attempt is made, refuting that
precondition failures are never retried. -/
theorem collector_retries_precondition_failure :
    (envZtePrecondition.attempt 0).error =
      some "FTP server is not enabled. Enable it in Web UI (ZTE FTP Ingestion)" ∧
    (backup_device hash0 envZtePrecondition deviceZte true FS.empty 0).attempts = 2 ∧
    (backup_device hash0 envZtePrecondition deviceZte true FS.empty 0).result.success
      = false := by
  refine ⟨rfl, ?_, ?_⟩ <;> decide

/-- C3 (amended): the collector decides retry eligibility from the adapter
success flag of the adapter result and the retry flag alone, never from the error
category: with a known vendor and permitted transport, any failed adapter
attempt, of every category including a relay precondition failure, is
followed by exactly one more attempt, while a storage failure after a
successful capture yields a failed result with a storage error and no second
adapter attempt. -/
theorem collector_retry_ignores_error_category (sha : String → String)
    (env : CollectorEnv) (device : Device) (fs : FS) (i : Nat) (v : Vendor)
    (hv : vendorOfKey (pyLower device.vendor) = some v)
    (hc : device.connection_type ∈ (Config.VENDOR_COMMANDS v).connection_types) :
    ((env.attempt i).success = false →
      (backup_device sha env device true fs i).attempts = 2) ∧
    ((env.attempt i).success = true →
      get_backup_path device.vendor device.id (env.now i) ∈ fs.dirs →
      (backup_device sha env device true fs i).attempts = 1 ∧
      (backup_device sha env device true fs i).result.success = false ∧
      (backup_device sha env device true fs i).result.error =
        some "Storage error: Backup directory already exists (immutability violation)") := by
  constructor
  · intro h1
    show (backup_device_core sha env device fs i
      (some (backup_device_core sha env device fs (i + 1) none))).attempts = 2
    rw [core_some_attempts_eq sha env device fs i _ v hv hc h1,
      core_none_attempts_eq sha env device fs (i + 1) v hv hc]
  · intro h2 hcol
    show (backup_device_core sha env device fs i
        (some (backup_device_core sha env device fs (i + 1) none))).attempts = 1 ∧ _ ∧ _
    exact core_storage_fail_eval sha env device fs i _ v hv hc h2 hcol

/-- C3 witness: the amended theorem applied to a first-attempt failure that
is retried, and to a storage collision that is not. -/
theorem collector_retry_ignores_error_category_witness :
    (backup_device hash0 envRetrySucceeds deviceCisco true FS.empty 0).attempts = 2 ∧
    (backup_device hash0 envAllSucceed deviceCisco true fsCollision 0).attempts = 1 ∧
    (backup_device hash0 envAllSucceed deviceCisco true fsCollision 0).result.error =
      some "Storage error: Backup directory already exists (immutability violation)" := by
  have ha := collector_retry_ignores_error_category hash0 envRetrySucceeds deviceCisco
    FS.empty 0 Vendor.cisco (by decide) (by decide)
  have hb := collector_retry_ignores_error_category hash0 envAllSucceed deviceCisco
    fsCollision 0 Vendor.cisco (by decide) (by decide)
  exact ⟨ha.1 (by decide), (hb.2 (by decide) (by decide)).1,
    (hb.2 (by decide) (by decide)).2.2⟩

/-- Helper: evaluation of a retry-armed invocation whose first attempt fails
and whose recursion succeeds: the retry result is returned as is, and the
history record of the first attempt is kept with its counter bumped and nothing
else changed. -/
theorem core_retry_taken (sha : String → String) (env : CollectorEnv)
    (device : Device) (fs : FS) (i : Nat) (rec : BDOutcome) (v : Vendor)
    (hv : vendorOfKey (pyLower device.vendor) = some v)
    (hc : device.connection_type ∈ (Config.VENDOR_COMMANDS v).connection_types)
    (h1 : (env.attempt i).success = false)
    (hrs : rec.result.success = true) :
    backup_device_core sha env device fs i (some rec) =
      { result := rec.result, fs := rec.fs,
        histories :=
          { create_backup_history i device (Config.VENDOR_COMMANDS v).backup_command with
              retry_count := 1 } :: rec.histories,
        attempts := 1 + rec.attempts } := by
  unfold backup_device_core
  rw [hv]
  dsimp only
  simp [hc, h1, hrs, Config.MAX_RETRY, create_backup_history]

/-- Helper: evaluation of a non-retrying invocation whose capture succeeds
and whose storage directory is fresh. -/
theorem core_none_inline_success (sha : String → String) (env : CollectorEnv)
    (device : Device) (fs : FS) (j : Nat) (v : Vendor)
    (hv : vendorOfKey (pyLower device.vendor) = some v)
    (hc : device.connection_type ∈ (Config.VENDOR_COMMANDS v).connection_types)
    (h2 : (env.attempt j).success = true)
    (h3 : get_backup_path device.vendor device.id (env.now j) ∉ fs.dirs) :
    (backup_device_core sha env device fs j none).result.success = true ∧
    (backup_device_core sha env device fs j none).result.history_id = some j ∧
    (backup_device_core sha env device fs j none).histories.length = 1 := by
  unfold backup_device_core
  rw [hv]
  dsimp only
  rw [save_backup_success_case sha fs device.vendor device.id device.name
    device.ip_address device.connection_type.key (Config.VENDOR_COMMANDS v).backup_command
    ((env.attempt j).output.getD "") (Config.VENDOR_COMMANDS v).output_extension
    (env.attempt j).execution_time (env.now j) h3]
  simp [hc, h2]

/-- C9: when the first attempt fails and the single retry succeeds, the
collector returns the result of the retry (success, the history id of the retry); the
history record of the first attempt is left in the RUNNING status with no
completion timestamp and the bumped retry counter. -/
theorem collector_retry_success_keeps_first_running (sha : String → String)
    (env : CollectorEnv) (device : Device) (fs : FS) (i : Nat) (v : Vendor)
    (hv : vendorOfKey (pyLower device.vendor) = some v)
    (hc : device.connection_type ∈ (Config.VENDOR_COMMANDS v).connection_types)
    (h1 : (env.attempt i).success = false)
    (h2 : (env.attempt (i + 1)).success = true)
    (h3 : get_backup_path device.vendor device.id (env.now (i + 1)) ∉ fs.dirs) :
    (backup_device sha env device true fs i).result.success = true ∧
    (backup_device sha env device true fs i).result.history_id = some (i + 1) ∧
    ∃ hfst hsnd,
      (backup_device sha env device true fs i).histories = [hfst, hsnd] ∧
      hfst.id = i ∧ hfst.status = BackupStatus.running ∧
      hfst.completed_at = none ∧ hfst.retry_count = 1 := by
  have hrec := core_none_inline_success sha env device fs (i + 1) v hv hc h2 h3
  have hbd : backup_device sha env device true fs i =
      backup_device_core sha env device fs i
        (some (backup_device_core sha env device fs (i + 1) none)) := rfl
  rw [hbd, core_retry_taken sha env device fs i _ v hv hc h1 hrec.1]
  obtain ⟨a, ha⟩ := List.length_eq_one.mp hrec.2.2
  refine ⟨hrec.1, hrec.2.1,
    { create_backup_history i device (Config.VENDOR_COMMANDS v).backup_command with
        retry_count := 1 }, a, ?_, rfl, rfl, rfl, rfl⟩
  rw [ha]

/-- C9 witness: the theorem applied to the concrete fail-then-succeed
environment; the first history record stays RUNNING without completion. -/
theorem collector_retry_success_keeps_first_running_witness :
    (backup_device hash0 envRetrySucceeds deviceCisco true FS.empty 0).result.success = true ∧
    (backup_device hash0 envRetrySucceeds deviceCisco true FS.empty 0).result.history_id =
      some 1 ∧
    ((backup_device hash0 envRetrySucceeds deviceCisco true FS.empty 0).histories.map
      fun h => (h.id, h.status, h.completed_at, h.retry_count)).head? =
      some (0, BackupStatus.running, none, 1) := by
  have h := collector_retry_success_keeps_first_running hash0 envRetrySucceeds deviceCisco
    FS.empty 0 Vendor.cisco (by decide) (by decide) (by decide) (by decide) (by decide)
  obtain ⟨hs, hid, hfst, hsnd, heq, hid0, hst, hcomp, hrc⟩ := h
  refine ⟨hs, hid, ?_⟩
  rw [heq]
  simp [hid0, hst, hcomp, hrc]

/-- C8: the ingestion handler filters filenames and derives the device from
the parent folder as specified, but it never produces a stored artifact: its
store call names the attribute store_backup, which the StorageManager class
does not define, so every upload that reaches the store step raises
AttributeError and is recorded as a failed history record; on every upload
the created history record, if any, ends in the failed status.  The second
conjunct evaluates the handler at the failing input, the third shows the
filename filter working. -/
theorem ftp_ingestion_store_bug :
    (∀ (devices : List IngestDevice) (file : FPath) (content : String),
      (on_file_received devices file content).history_status = some BackupStatus.failed ∨
      (on_file_received devices file content).history_status = none) ∧
    (on_file_received [⟨3, "OLT1", "zte"⟩]
        ["", "var", "lib", "leuitcss", "ftp-ingestion", "zte", "OLT1", "startrun.dat"]
        "cfgbytes") =
      { outcome := IngestOutcome.store_failed
          "AttributeError: StorageManager object has no attribute store_backup",
        history_status := some BackupStatus.failed } ∧
    (on_file_received [⟨3, "OLT1", "zte"⟩]
        ["", "var", "lib", "leuitcss", "ftp-ingestion", "zte", "OLT1", "evil.txt"]
        "x").outcome = IngestOutcome.ignored_name ∧
    ("store_backup" ∈ storage_manager_methods) = False := by
  refine ⟨?_, by decide, by decide, by simp [storage_manager_methods]⟩
  intro devices file content
  unfold on_file_received
  dsimp only
  repeat' split
  all_goals simp_all [storage_manager_methods]

end LeuitCSS
